import Mathlib

set_option maxHeartbeats 1000000

/-
Verification development for the raster-based geological sub-models of
tectonics.js (src/noncompiled/academics/TectonicsModeling.js).

The source operates on JavaScript floating-point numbers.  Following the
convention that conservation and transport facts are stated in exact
arithmetic, numbers are embedded as exact rationals extended with the
IEEE special values NaN and plus/minus infinity (type JsVal below), since
the erosion fraction pass of get_erosion deliberately exploits division
by zero, NaN propagation and the expression (x || 0).  Rounding is not
modelled; all other operator semantics (comparisons that are false on
NaN, NaN absorption, infinity signs, zero times infinity being NaN,
truthiness of the or-operator) follow the JavaScript specification.
-/

/-- JavaScript number semantics over exact rationals: a value is NaN,
plus infinity, minus infinity, or a finite rational. -/
inductive JsVal : Type where
  | nan : JsVal
  | posInf : JsVal
  | negInf : JsVal
  | num : ℚ → JsVal
deriving DecidableEq

/-- Finite part of a JsVal; NaN and the infinities map to 0.  Used only in
statements that separately assert finiteness. -/
def JsVal.toQ : JsVal → ℚ
  | JsVal.num q => q
  | _ => 0

/-- JavaScript unary minus. -/
def jsNeg : JsVal → JsVal
  | JsVal.nan => JsVal.nan
  | JsVal.posInf => JsVal.negInf
  | JsVal.negInf => JsVal.posInf
  | JsVal.num a => JsVal.num (-a)

/-- JavaScript addition: NaN absorbs, opposite infinities give NaN. -/
def jsAdd : JsVal → JsVal → JsVal
  | JsVal.nan, _ => JsVal.nan
  | _, JsVal.nan => JsVal.nan
  | JsVal.posInf, JsVal.negInf => JsVal.nan
  | JsVal.posInf, _ => JsVal.posInf
  | JsVal.negInf, JsVal.posInf => JsVal.nan
  | JsVal.negInf, _ => JsVal.negInf
  | JsVal.num _, JsVal.posInf => JsVal.posInf
  | JsVal.num _, JsVal.negInf => JsVal.negInf
  | JsVal.num a, JsVal.num b => JsVal.num (a + b)

/-- JavaScript subtraction. -/
def jsSub (a b : JsVal) : JsVal := jsAdd a (jsNeg b)

/-- JavaScript multiplication: NaN absorbs, zero times infinity is NaN. -/
def jsMul : JsVal → JsVal → JsVal
  | JsVal.nan, _ => JsVal.nan
  | _, JsVal.nan => JsVal.nan
  | JsVal.posInf, JsVal.posInf => JsVal.posInf
  | JsVal.posInf, JsVal.negInf => JsVal.negInf
  | JsVal.negInf, JsVal.posInf => JsVal.negInf
  | JsVal.negInf, JsVal.negInf => JsVal.posInf
  | JsVal.posInf, JsVal.num b =>
      if b = 0 then JsVal.nan else if 0 < b then JsVal.posInf else JsVal.negInf
  | JsVal.negInf, JsVal.num b =>
      if b = 0 then JsVal.nan else if 0 < b then JsVal.negInf else JsVal.posInf
  | JsVal.num a, JsVal.posInf =>
      if a = 0 then JsVal.nan else if 0 < a then JsVal.posInf else JsVal.negInf
  | JsVal.num a, JsVal.negInf =>
      if a = 0 then JsVal.nan else if 0 < a then JsVal.negInf else JsVal.posInf
  | JsVal.num a, JsVal.num b => JsVal.num (a * b)

/-- JavaScript division of a finite numerator by a JsVal: division by zero
gives a signed infinity, zero over zero gives NaN, division by an infinity
gives zero. -/
def jsDivNum (q : ℚ) : JsVal → JsVal
  | JsVal.nan => JsVal.nan
  | JsVal.posInf => JsVal.num 0
  | JsVal.negInf => JsVal.num 0
  | JsVal.num r =>
      if r = 0 then
        (if q = 0 then JsVal.nan else if 0 < q then JsVal.posInf else JsVal.negInf)
      else JsVal.num (q / r)

/-- JavaScript division of a JsVal by a natural number (the neighbor count
of a cell): division by zero gives NaN or a signed infinity. -/
def jsDivN : JsVal → ℕ → JsVal
  | JsVal.nan, _ => JsVal.nan
  | JsVal.posInf, _ => JsVal.posInf
  | JsVal.negInf, _ => JsVal.negInf
  | JsVal.num r, k =>
      if k = 0 then
        (if r = 0 then JsVal.nan else if 0 < r then JsVal.posInf else JsVal.negInf)
      else JsVal.num (r / (k : ℚ))

/-- The JavaScript expression (x || 0): NaN and zero are falsy and yield 0;
every other value is returned unchanged (zero maps to zero either way, so
only NaN is rewritten). -/
def orZero : JsVal → JsVal
  | JsVal.nan => JsVal.num 0
  | v => v

/-- Rational clamp to the unit interval, written exactly as the source
conditional: fraction greater than 1 becomes 1, less than 0 becomes 0. -/
def clampQ (x : ℚ) : ℚ := if 1 < x then 1 else if x < 0 then 0 else x

/-- The source conditional (fraction gt 1 ? 1 : fraction lt 0 ? 0 : fraction)
on JsVal: both comparisons are false on NaN, so NaN passes through; plus
infinity clamps to 1 and minus infinity to 0. -/
def clamp01 : JsVal → JsVal
  | JsVal.nan => JsVal.nan
  | JsVal.posInf => JsVal.num 1
  | JsVal.negInf => JsVal.num 0
  | JsVal.num r => JsVal.num (clampQ r)

/-- Mesh topology as consumed by the source: the directed edge list
(grid.arrows) and the per-cell neighbor count (grid.neighbor_count). -/
structure Grid (n : ℕ) where
  arrows : List (Fin n × Fin n)
  neighbor_count : Fin n → ℕ

/-- Topology invariant from the spec data model: the neighbor count of a
cell equals the number of directed edges leaving it. -/
def Grid.valid {n : ℕ} (g : Grid n) : Prop :=
  ∀ c : Fin n, g.neighbor_count c = (g.arrows.filter (fun a => decide (a.1 = c))).length

instance {n : ℕ} (g : Grid n) : Decidable g.valid := by
  unfold Grid.valid; infer_instance

/-- The four conserved reservoirs of a crust bundle (top_crust). -/
structure Crust (n : ℕ) where
  sediment : Fin n → ℚ
  sedimentary : Fin n → ℚ
  metamorphic : Fin n → ℚ
  sial : Fin n → ℚ

/-- The per-step signed changes of the four reservoirs (crust_delta).
Delta cells are JsVal because they are accumulated with JavaScript
arithmetic. -/
structure CrustDelta (n : ℕ) where
  sediment : Fin n → JsVal
  sedimentary : Fin n → JsVal
  metamorphic : Fin n → JsVal
  sial : Fin n → JsVal

/-- Modelled from the spec: Crust.reset, whose implementation is not under
src, zeroes every field of the delta bundle before the transfer passes
accumulate into it (the delta bundle holds freshly computed per-step
changes, never running totals). -/
def crustReset {n : ℕ} (_d : CrustDelta n) : CrustDelta n :=
  { sediment := fun _ => JsVal.num 0
    sedimentary := fun _ => JsVal.num 0
    metamorphic := fun _ => JsVal.num 0
    sial := fun _ => JsVal.num 0 }

/-- Fixed simulation constant of get_erosion: 7.8e5 meters of rain per
million years. -/
def precipitation : ℚ := 780000

/-- Fixed simulation constant of get_erosion: 1.8e-7 fraction of height
difference per meter of rain. -/
def erosiveFactor : ℚ := 9 / 50000000

/-- Water height field: displacement minus sealevel, clamped below at 0
(ScalarField.max_scalar with scalar 0). -/
def waterHeight {n : ℕ} (displacement : Fin n → ℚ) (sealevel : ℚ) : Fin n → ℚ :=
  fun i => if displacement i - sealevel < 0 then 0 else displacement i - sealevel

/-- Outbound flux candidate carried by one directed edge: positive height
difference times precipitation times timestep times erosive factor,
otherwise zero (both passes of get_erosion recompute this expression). -/
def edgeFlux {n : ℕ} (water : Fin n → ℚ) (timestep : ℚ) (a : Fin n × Fin n) : ℚ :=
  if 0 < water a.1 - water a.2 then
    (water a.1 - water a.2) * precipitation * timestep * erosiveFactor
  else 0

/-- Sum of the edge fluxes leaving cell c among the edges of a list; the
first pass of get_erosion accumulates exactly these terms into
outbound_height_transfer. -/
def outboundOverList {n : ℕ} (water : Fin n → ℚ) (timestep : ℚ)
    (L : List (Fin n × Fin n)) (c : Fin n) : ℚ :=
  (L.map (fun a => if a.1 = c then edgeFlux water timestep a else 0)).sum

/-- The outbound_height_transfer raster after the first pass of
get_erosion. -/
def outboundHeightTransfer {n : ℕ} (g : Grid n) (water : Fin n → ℚ) (timestep : ℚ)
    (c : Fin n) : ℚ :=
  outboundOverList water timestep g.arrows c

/-- One reservoir step of the per-cell fraction pass of get_erosion
(source lines 167 to 170): fraction is the reservoir quantity divided by
the remaining flux candidate, clamped; the stored value is the fraction
divided by the neighbor count, with (|| 0) catching NaN; the remaining
flux candidate is multiplied by one minus the fraction.  Returns the
stored value and the new remaining flux candidate. -/
def erosionFracStep (q : ℚ) (k : ℕ) (R : JsVal) : JsVal × JsVal :=
  (orZero (jsDivN (clamp01 (jsDivNum q R)) k),
   jsMul R (jsSub (JsVal.num 1) (clamp01 (jsDivNum q R))))

/-- The full per-cell fraction pass of get_erosion: reservoirs processed
in the order sediment, sedimentary, metamorphic, sial, threading the
remaining flux candidate; returns the four stored outbound fractions. -/
def erosionFractions (q1 q2 q3 q4 : ℚ) (k : ℕ) (oht : ℚ) :
    JsVal × JsVal × JsVal × JsVal :=
  let s1 := erosionFracStep q1 k (JsVal.num oht)
  let s2 := erosionFracStep q2 k s1.2
  let s3 := erosionFracStep q3 k s2.2
  let s4 := erosionFracStep q4 k s3.2
  (s1.1, s2.1, s3.1, s4.1)

/-- One arrow of the transfer pass of get_erosion for one reservoir:
transfer is the edge flux times the stored fraction at the source cell;
it is subtracted from the delta at the source and added to the delta at
the target, in that order. -/
def applyTransfer {n : ℕ} (water : Fin n → ℚ) (timestep : ℚ) (frac : Fin n → JsVal)
    (d : Fin n → JsVal) (a : Fin n × Fin n) : Fin n → JsVal :=
  let transfer := jsMul (JsVal.num (edgeFlux water timestep a)) (frac a.1)
  let d1 := Function.update d a.1 (jsSub (d a.1) transfer)
  Function.update d1 a.2 (jsAdd (d1 a.2) transfer)

/-- The transfer pass of get_erosion for one reservoir: fold over all
arrows starting from the reset delta field.  The source interleaves the
four reservoirs in a single loop, but each loop iteration touches only
the delta field of its own reservoir, so the fields can be folded
independently. -/
def erosionDelta {n : ℕ} (g : Grid n) (water : Fin n → ℚ) (timestep : ℚ)
    (frac : Fin n → JsVal) (d0 : Fin n → JsVal) : Fin n → JsVal :=
  g.arrows.foldl (applyTransfer water timestep frac) d0

/-- TectonicsModeling.get_erosion: reset the delta bundle, compute the
water height, accumulate outbound flux candidates, compute the per-cell
withdrawal fractions, then run the transfer pass for each reservoir. -/
def get_erosion {n : ℕ} (g : Grid n) (displacement : Fin n → ℚ) (sealevel timestep : ℚ)
    (top_crust : Crust n) (crust_delta : CrustDelta n) : CrustDelta n :=
  let delta0 := crustReset crust_delta
  let water := waterHeight displacement sealevel
  let oht := outboundHeightTransfer g water timestep
  let fr := fun i => erosionFractions (top_crust.sediment i) (top_crust.sedimentary i)
      (top_crust.metamorphic i) (top_crust.sial i) (g.neighbor_count i) (oht i)
  { sediment := erosionDelta g water timestep (fun i => (fr i).1) delta0.sediment
    sedimentary := erosionDelta g water timestep (fun i => (fr i).2.1) delta0.sedimentary
    metamorphic := erosionDelta g water timestep (fun i => (fr i).2.2.1) delta0.metamorphic
    sial := erosionDelta g water timestep (fun i => (fr i).2.2.2) delta0.sial }

/-- Sum of the finite parts of a delta field over all cells. -/
def deltaSum {n : ℕ} (d : Fin n → JsVal) : ℚ :=
  ∑ i, (d i).toQ

/-- Modelled from the spec: ScalarField.diffusion_by_constant, whose
implementation is not under src, performs one local-averaging pass:
every cell value is blended with the average of its neighbor values in
proportion to the diffusion constant (constant 1 replaces the value by
the neighbor average).  A cell with no neighbors keeps its value. -/
def diffusion_by_constant {n : ℕ} (f : Fin n → ℚ) (c : ℚ) (g : Grid n) : Fin n → ℚ :=
  fun i =>
    if g.neighbor_count i = 0 then f i
    else f i + c * (((g.arrows.filter (fun a => decide (a.1 = i))).map (fun a => f a.2)).sum
        / (g.neighbor_count i : ℚ) - f i)

/-- Iterated smoothing: m diffusion passes with constant 1 applied to a
copy of the input field. -/
def smoothIter {n : ℕ} (g : Grid n) (f : Fin n → ℚ) : ℕ → (Fin n → ℚ)
  | 0 => f
  | m + 1 => diffusion_by_constant (smoothIter g f m) 1 g

/-- TectonicsModeling.get_asthenosphere_pressure: copy the density field
into the pressure raster and run 15 diffusion passes with constant 1. -/
def get_asthenosphere_pressure {n : ℕ} (g : Grid n) (density : Fin n → ℚ) : Fin n → ℚ :=
  smoothIter g density 15

/-- Raster state visible to a caller of get_asthenosphere_pressure when it
supplies distinct density, pressure and scratch rasters. -/
structure PressureState (n : ℕ) where
  density : Fin n → ℚ
  pressure : Fin n → ℚ
  scratch : Fin n → ℚ

/-- State-passing form of get_asthenosphere_pressure: the routine writes
the pressure raster (copy of density, then 15 smoothing passes) and the
scratch raster, and reads but never writes the density raster.  The final
scratch contents are an intermediate of the last pass; the spec leaves
them unspecified and nothing below depends on them. -/
def get_asthenosphere_pressure_state {n : ℕ} (g : Grid n) (s : PressureState n) :
    PressureState n :=
  { density := s.density
    pressure := get_asthenosphere_pressure g s.density
    scratch := smoothIter g s.density 14 }

/-- TectonicsModeling.get_displacement: pointwise isostatic displacement,
thickness minus thickness times density times the inverse mantle
density. -/
def get_displacement {n : ℕ} (thickness density : Fin n → ℚ) (mantleDensity : ℚ) :
    Fin n → ℚ :=
  fun i => thickness i - thickness i * density i * (1 / mantleDensity)

/-- Modelled from the spec: one-hop binary dilation over mesh adjacency
(BinaryMorphology is not under src): a cell is set when it or any of its
neighbors is set. -/
def dilateOnce {n : ℕ} (g : Grid n) (mask : Fin n → Bool) : Fin n → Bool :=
  fun i => mask i || (g.arrows.filter (fun a => decide (a.1 = i))).any (fun a => mask a.2)

/-- Modelled from the spec: binary dilation with a hop radius, iterated
one-hop dilation. -/
def dilation {n : ℕ} (g : Grid n) (mask : Fin n → Bool) : ℕ → (Fin n → Bool)
  | 0 => mask
  | r + 1 => dilateOnce g (dilation g mask r)

/-- Modelled from the spec: one-hop binary erosion over mesh adjacency: a
cell stays set only when it and all of its neighbors are set. -/
def maskErodeOnce {n : ℕ} (g : Grid n) (mask : Fin n → Bool) : Fin n → Bool :=
  fun i => mask i && (g.arrows.filter (fun a => decide (a.1 = i))).all (fun a => mask a.2)

/-- Modelled from the spec: binary erosion with a hop radius. -/
def maskErosion {n : ℕ} (g : Grid n) (mask : Fin n → Bool) : ℕ → (Fin n → Bool)
  | 0 => mask
  | r + 1 => maskErodeOnce g (maskErosion g mask r)

/-- Modelled from the spec: binary closing, dilation followed by erosion
with the same radius. -/
def closing {n : ℕ} (g : Grid n) (mask : Fin n → Bool) (r : ℕ) : Fin n → Bool :=
  maskErosion g (dilation g mask r) r

/-- Modelled from the spec: BinaryMorphology.difference, the set
difference of two masks. -/
def maskDifference {n : ℕ} (a b : Fin n → Bool) : Fin n → Bool :=
  fun i => a i && !(b i)

/-- Modelled from the spec: Uint8RasterGraphics.fill_into_selection,
writing a constant into the cells selected by a mask. -/
def fill_into_selection {n : ℕ} (labels : Fin n → ℕ) (v : ℕ) (mask : Fin n → Bool) :
    Fin n → ℕ :=
  fun i => if mask i then v else labels i

/-- One iteration of the post-processing loop of get_plate_map (source
lines 282 to 292) for one plate id: build the segment mask and the
is_empty and is_occupied masks, dilate and close the segment with radius
5, subtract is_occupied, and fill the result back under the id. -/
def plateStep {n : ℕ} (g : Grid n) (labels : Fin n → ℕ) (id : ℕ) : Fin n → ℕ :=
  let segment := fun i => decide (labels i = id)
  let is_empty := fun i => decide (labels i = 0)
  let is_occupied := maskDifference (fun i => decide (labels i ≠ id)) is_empty
  let grown := closing g (dilation g segment 5) 5
  let cleaned := maskDifference grown is_occupied
  fill_into_selection labels id cleaned

/-- Spec-worded withdrawal-fraction step, corrected recurrence: the
fraction is clamp(q / R, 0, 1) and the remaining flux candidate is
reduced to R times (1 - fraction). -/
def specFracStep (q R : ℚ) : ℚ × ℚ :=
  (clampQ (q / R), R * (1 - clampQ (q / R)))

/-- Spec-worded withdrawal-fraction step exactly as the claim words it:
the fraction is clamp(q / R, 0, 1) and the remaining flux candidate is
reduced by R times (1 - fraction), that is, to R - R * (1 - fraction). -/
def specFracStepAsWritten (q R : ℚ) : ℚ × ℚ :=
  (clampQ (q / R), R - R * (1 - clampQ (q / R)))

/-- Two-cell grid with one edge in each direction, used as a concrete
test fixture. -/
def gEx : Grid 2 :=
  { arrows := [((0 : Fin 2), (1 : Fin 2)), ((1 : Fin 2), (0 : Fin 2))]
    neighbor_count := fun _ => 1 }

/-- Displacement fixture: cell 0 at height 2, cell 1 at height 0. -/
def dispEx : Fin 2 → ℚ := fun i => if i = 0 then 2 else 0

/-- Timestep fixture chosen so that precipitation times timestep times
the erosive factor equals 1, making the edge flux from cell 0 equal 2. -/
def tsEx : ℚ := 2500 / 351

/-- Crust fixture: one unit each of sediment and sedimentary rock in
cell 0, everything else empty. -/
def topEx : Crust 2 :=
  { sediment := fun i => if i = 0 then 1 else 0
    sedimentary := fun i => if i = 0 then 1 else 0
    metamorphic := fun _ => 0
    sial := fun _ => 0 }

/-- All-zero delta fixture. -/
def deltaZeroEx : CrustDelta 2 :=
  { sediment := fun _ => JsVal.num 0
    sedimentary := fun _ => JsVal.num 0
    metamorphic := fun _ => JsVal.num 0
    sial := fun _ => JsVal.num 0 }

@[simp] lemma jsNeg_num (a : ℚ) : jsNeg (JsVal.num a) = JsVal.num (-a) := rfl

@[simp] lemma jsAdd_num (a b : ℚ) : jsAdd (JsVal.num a) (JsVal.num b) = JsVal.num (a + b) := rfl

@[simp] lemma jsSub_num (a b : ℚ) : jsSub (JsVal.num a) (JsVal.num b) = JsVal.num (a - b) := by
  simp [jsSub, sub_eq_add_neg]

@[simp] lemma jsMul_num (a b : ℚ) : jsMul (JsVal.num a) (JsVal.num b) = JsVal.num (a * b) := rfl

@[simp] lemma orZero_num (a : ℚ) : orZero (JsVal.num a) = JsVal.num a := rfl

@[simp] lemma toQ_num (a : ℚ) : (JsVal.num a).toQ = a := rfl

lemma clampQ_nonneg (x : ℚ) : 0 ≤ clampQ x := by
  unfold clampQ; split_ifs with h1 h2 <;> linarith

lemma clampQ_le_one (x : ℚ) : clampQ x ≤ 1 := by
  unfold clampQ; split_ifs with h1 h2 <;> linarith

lemma clampQ_le_self (x : ℚ) (hx : 0 ≤ x) : clampQ x ≤ x := by
  unfold clampQ; split_ifs with h1 h2 <;> linarith

/-- For a cell with at least one neighbor, the stored outbound fraction of
one reservoir step is always a finite number between 0 and 1, whatever the
reservoir quantity and the remaining flux candidate (NaN is caught by the
or-zero, infinities are clamped). -/
lemma erosionFracStep_num {k : ℕ} (hk : k ≠ 0) (q : ℚ) (R : JsVal) :
    ∃ c : ℚ, (erosionFracStep q k R).1 = JsVal.num c ∧ 0 ≤ c ∧ c ≤ 1 := by
  have hk1 : (1 : ℚ) ≤ (k : ℚ) := by exact_mod_cast Nat.one_le_iff_ne_zero.2 hk
  have hkpos : (0 : ℚ) < (k : ℚ) := by linarith
  rcases hv : jsDivNum q R with _ | _ | _ | r
  · exact ⟨0, by simp [erosionFracStep, hv, clamp01, jsDivN, orZero], le_refl 0, by norm_num⟩
  · refine ⟨1 / (k : ℚ), by simp [erosionFracStep, hv, clamp01, jsDivN, hk, orZero], ?_, ?_⟩
    · positivity
    · rw [div_le_one hkpos]; exact hk1
  · exact ⟨0, by simp [erosionFracStep, hv, clamp01, clampQ, jsDivN, hk, orZero], le_refl 0, by norm_num⟩
  · refine ⟨clampQ r / (k : ℚ), by simp [erosionFracStep, hv, clamp01, jsDivN, hk, orZero], ?_, ?_⟩
    · exact div_nonneg (clampQ_nonneg r) (le_of_lt hkpos)
    · calc clampQ r / (k : ℚ) ≤ clampQ r / 1 := by
            apply div_le_div_of_nonneg_left (clampQ_nonneg r) one_pos hk1
          _ ≤ 1 := by rw [div_one]; exact clampQ_le_one r

/-- With a nonzero finite remaining flux candidate and at least one
neighbor, one reservoir step of the code computes exactly the spec-worded
clamp formula divided by the neighbor count, and multiplies the remaining
flux candidate by one minus the fraction. -/
lemma erosionFracStep_eval {k : ℕ} (hk : k ≠ 0) (q r : ℚ) (hr : r ≠ 0) :
    erosionFracStep q k (JsVal.num r) =
      (JsVal.num (clampQ (q / r) / (k : ℚ)), JsVal.num (r * (1 - clampQ (q / r)))) := by
  simp [erosionFracStep, jsDivNum, hr, clamp01, jsDivN, hk]

/-- The four components of the per-cell fraction pass, unfolded to the
chain of single reservoir steps. -/
lemma erosionFractions_comp (q1 q2 q3 q4 : ℚ) (k : ℕ) (oht : ℚ) :
    erosionFractions q1 q2 q3 q4 k oht =
      ((erosionFracStep q1 k (JsVal.num oht)).1,
       (erosionFracStep q2 k (erosionFracStep q1 k (JsVal.num oht)).2).1,
       (erosionFracStep q3 k (erosionFracStep q2 k
          (erosionFracStep q1 k (JsVal.num oht)).2).2).1,
       (erosionFracStep q4 k (erosionFracStep q3 k (erosionFracStep q2 k
          (erosionFracStep q1 k (JsVal.num oht)).2).2).2).1) := rfl

/-- In a valid topology, the source cell of every arrow has a nonzero
neighbor count. -/
lemma Grid.valid_ncount_ne_zero {n : ℕ} {g : Grid n} (hg : g.valid)
    {a : Fin n × Fin n} (ha : a ∈ g.arrows) : g.neighbor_count a.1 ≠ 0 := by
  rw [hg a.1]
  have hmem : a ∈ g.arrows.filter (fun b => decide (b.1 = a.1)) :=
    List.mem_filter.2 ⟨ha, by simp⟩
  exact Nat.pos_iff_ne_zero.1 (List.length_pos_of_mem hmem)

/-- In a valid topology, a cell with no neighbors accumulates no outbound
height transfer. -/
lemma outboundHeightTransfer_eq_zero {n : ℕ} {g : Grid n} (hg : g.valid)
    (water : Fin n → ℚ) (timestep : ℚ) {c : Fin n} (hc : g.neighbor_count c = 0) :
    outboundHeightTransfer g water timestep c = 0 := by
  have hfil : g.arrows.filter (fun b => decide (b.1 = c)) = [] := by
    have := hg c
    rw [hc] at this
    exact List.length_eq_zero.1 this.symm
  have hnot : ∀ a ∈ g.arrows, a.1 ≠ c := by
    intro a ha
    intro h
    have : a ∈ g.arrows.filter (fun b => decide (b.1 = c)) :=
      List.mem_filter.2 ⟨ha, by simp [h]⟩
    rw [hfil] at this
    exact absurd this (List.not_mem_nil a)
  unfold outboundHeightTransfer outboundOverList
  apply List.sum_eq_zero
  intro x hx
  obtain ⟨a, ha, rfl⟩ := List.mem_map.1 hx
  simp [hnot a ha]

/-- Edge fluxes are nonnegative for a nonnegative timestep. -/
lemma edgeFlux_nonneg {n : ℕ} (water : Fin n → ℚ) {timestep : ℚ} (hts : 0 ≤ timestep)
    (a : Fin n × Fin n) : 0 ≤ edgeFlux water timestep a := by
  unfold edgeFlux
  split_ifs with h
  · have hp : (0 : ℚ) ≤ precipitation := by norm_num [precipitation]
    have he : (0 : ℚ) ≤ erosiveFactor := by norm_num [erosiveFactor]
    have := le_of_lt h
    positivity
  · exact le_refl 0

/-- Total outbound flux candidates are nonnegative for a nonnegative
timestep. -/
lemma outboundHeightTransfer_nonneg {n : ℕ} (g : Grid n) (water : Fin n → ℚ)
    {timestep : ℚ} (hts : 0 ≤ timestep) (c : Fin n) :
    0 ≤ outboundHeightTransfer g water timestep c := by
  unfold outboundHeightTransfer outboundOverList
  apply List.sum_nonneg
  intro x hx
  obtain ⟨a, ha, rfl⟩ := List.mem_map.1 hx
  split_ifs with h
  · exact edgeFlux_nonneg water hts a
  · exact le_refl 0

/-- Summing a delta field after updating one cell adjusts the sum by the
difference at that cell. -/
lemma deltaSum_update {n : ℕ} (d : Fin n → JsVal) (i : Fin n) (v : JsVal) :
    deltaSum (Function.update d i v) = deltaSum d + v.toQ - (d i).toQ := by
  unfold deltaSum
  have h : ∀ j, (Function.update d i v j).toQ =
      Function.update (fun k => (d k).toQ) i v.toQ j := by
    intro j
    exact Function.apply_update (fun _ x => JsVal.toQ x) d i v j
  rw [Finset.sum_congr rfl (fun j _ => h j)]
  rw [Finset.sum_update_of_mem (Finset.mem_univ i)]
  have := Finset.sum_eq_sum_diff_singleton_add (Finset.mem_univ i) (fun k => (d k).toQ)
  rw [this]
  ring

/-- One arrow of the transfer pass, when the stored fraction at the source
cell is finite and every delta cell is finite: all delta cells stay
finite and the total of the delta field is unchanged (the transfer is
subtracted at the source and added at the target). -/
lemma applyTransfer_conserves {n : ℕ} (water : Fin n → ℚ) (timestep : ℚ)
    (frac : Fin n → JsVal) (d : Fin n → JsVal) (a : Fin n × Fin n) (c : ℚ)
    (hc : frac a.1 = JsVal.num c) (hd : ∀ i, ∃ q, d i = JsVal.num q) :
    (∀ i, ∃ q, applyTransfer water timestep frac d a i = JsVal.num q) ∧
    deltaSum (applyTransfer water timestep frac d a) = deltaSum d := by
  obtain ⟨x, hx⟩ := hd a.1
  set t : ℚ := edgeFlux water timestep a * c with ht
  have htr : jsMul (JsVal.num (edgeFlux water timestep a)) (frac a.1) = JsVal.num t := by
    rw [hc]; simp [ht]
  have happ : applyTransfer water timestep frac d a =
      Function.update (Function.update d a.1 (JsVal.num (x - t))) a.2
        (jsAdd (Function.update d a.1 (JsVal.num (x - t)) a.2) (JsVal.num t)) := by
    simp only [applyTransfer, htr]
    rw [hx]
    simp only [jsSub_num]
  have hd1fin : ∀ i, ∃ q, Function.update d a.1 (JsVal.num (x - t)) i = JsVal.num q := by
    intro i
    by_cases h : i = a.1
    · subst h; exact ⟨x - t, by simp⟩
    · obtain ⟨q, hq⟩ := hd i
      exact ⟨q, by rw [Function.update_apply, if_neg h]; exact hq⟩
  obtain ⟨y, hy⟩ := hd1fin a.2
  rw [happ, hy]
  constructor
  · intro i
    by_cases h : i = a.2
    · subst h
      exact ⟨y + t, by rw [Function.update_apply, if_pos rfl]; simp⟩
    · obtain ⟨q, hq⟩ := hd1fin i
      exact ⟨q, by rw [Function.update_apply, if_neg h]; exact hq⟩
  · rw [deltaSum_update, deltaSum_update, hx, hy]
    simp only [jsAdd_num, toQ_num]
    ring

/-- The transfer pass folded over any arrow list: when the stored fraction
at every source cell is finite and the initial delta field is finite, the
final delta field is finite and its total equals the initial total. -/
lemma foldl_applyTransfer_conserves {n : ℕ} (water : Fin n → ℚ) (timestep : ℚ)
    (frac : Fin n → JsVal) :
    ∀ (L : List (Fin n × Fin n)) (d : Fin n → JsVal),
      (∀ a ∈ L, ∃ c, frac a.1 = JsVal.num c) →
      (∀ i, ∃ q, d i = JsVal.num q) →
      (∀ i, ∃ q, L.foldl (applyTransfer water timestep frac) d i = JsVal.num q) ∧
      deltaSum (L.foldl (applyTransfer water timestep frac) d) = deltaSum d := by
  intro L
  induction L with
  | nil => intro d _ hd; exact ⟨hd, rfl⟩
  | cons a L ih =>
    intro d hL hd
    obtain ⟨c, hc⟩ := hL a (List.mem_cons_self a L)
    have step := applyTransfer_conserves water timestep frac d a c hc hd
    have tail := ih (applyTransfer water timestep frac d a)
      (fun b hb => hL b (List.mem_cons_of_mem a hb)) step.1
    refine ⟨tail.1, ?_⟩
    calc deltaSum ((a :: L).foldl (applyTransfer water timestep frac) d)
        = deltaSum (L.foldl (applyTransfer water timestep frac)
            (applyTransfer water timestep frac d a)) := rfl
      _ = deltaSum (applyTransfer water timestep frac d a) := tail.2
      _ = deltaSum d := step.2

/-- The four delta fields produced by get_erosion, unfolded to their
transfer-pass folds starting from the reset (all-zero) delta bundle. -/
lemma get_erosion_fields {n : ℕ} (g : Grid n) (displacement : Fin n → ℚ)
    (sealevel timestep : ℚ) (top_crust : Crust n) (crust_delta : CrustDelta n) :
    (get_erosion g displacement sealevel timestep top_crust crust_delta).sediment =
      erosionDelta g (waterHeight displacement sealevel) timestep
        (fun i => (erosionFractions (top_crust.sediment i) (top_crust.sedimentary i)
          (top_crust.metamorphic i) (top_crust.sial i) (g.neighbor_count i)
          (outboundHeightTransfer g (waterHeight displacement sealevel) timestep i)).1)
        (fun _ => JsVal.num 0) ∧
    (get_erosion g displacement sealevel timestep top_crust crust_delta).sedimentary =
      erosionDelta g (waterHeight displacement sealevel) timestep
        (fun i => (erosionFractions (top_crust.sediment i) (top_crust.sedimentary i)
          (top_crust.metamorphic i) (top_crust.sial i) (g.neighbor_count i)
          (outboundHeightTransfer g (waterHeight displacement sealevel) timestep i)).2.1)
        (fun _ => JsVal.num 0) ∧
    (get_erosion g displacement sealevel timestep top_crust crust_delta).metamorphic =
      erosionDelta g (waterHeight displacement sealevel) timestep
        (fun i => (erosionFractions (top_crust.sediment i) (top_crust.sedimentary i)
          (top_crust.metamorphic i) (top_crust.sial i) (g.neighbor_count i)
          (outboundHeightTransfer g (waterHeight displacement sealevel) timestep i)).2.2.1)
        (fun _ => JsVal.num 0) ∧
    (get_erosion g displacement sealevel timestep top_crust crust_delta).sial =
      erosionDelta g (waterHeight displacement sealevel) timestep
        (fun i => (erosionFractions (top_crust.sediment i) (top_crust.sedimentary i)
          (top_crust.metamorphic i) (top_crust.sial i) (g.neighbor_count i)
          (outboundHeightTransfer g (waterHeight displacement sealevel) timestep i)).2.2.2)
        (fun _ => JsVal.num 0) :=
  ⟨rfl, rfl, rfl, rfl⟩

/-- When every source cell of an arrow holds a finite stored fraction, the
transfer pass starting from the reset delta field produces a finite field
whose total is zero. -/
lemma erosionDelta_conserves {n : ℕ} (g : Grid n) (water : Fin n → ℚ) (timestep : ℚ)
    (frac : Fin n → JsVal) (hfr : ∀ a ∈ g.arrows, ∃ c, frac a.1 = JsVal.num c) :
    (∀ i, ∃ q, erosionDelta g water timestep frac (fun _ => JsVal.num 0) i = JsVal.num q) ∧
    deltaSum (erosionDelta g water timestep frac (fun _ => JsVal.num 0)) = 0 := by
  have h := foldl_applyTransfer_conserves water timestep frac g.arrows
    (fun _ => JsVal.num 0) hfr (fun i => ⟨0, rfl⟩)
  refine ⟨h.1, ?_⟩
  have hz : deltaSum (fun _ : Fin n => JsVal.num 0) = 0 := by simp [deltaSum]
  calc deltaSum (erosionDelta g water timestep frac (fun _ => JsVal.num 0))
      = deltaSum (fun _ : Fin n => JsVal.num 0) := h.2
    _ = 0 := hz

/-- For an arrow of a valid grid, all four stored fractions at its source
cell are finite numbers. -/
lemma erosionFractions_all_num {n : ℕ} {g : Grid n} (hg : g.valid) (top_crust : Crust n)
    (oht : Fin n → ℚ) {a : Fin n × Fin n} (ha : a ∈ g.arrows) :
    (∃ c, (erosionFractions (top_crust.sediment a.1) (top_crust.sedimentary a.1)
      (top_crust.metamorphic a.1) (top_crust.sial a.1) (g.neighbor_count a.1) (oht a.1)).1
        = JsVal.num c) ∧
    (∃ c, (erosionFractions (top_crust.sediment a.1) (top_crust.sedimentary a.1)
      (top_crust.metamorphic a.1) (top_crust.sial a.1) (g.neighbor_count a.1) (oht a.1)).2.1
        = JsVal.num c) ∧
    (∃ c, (erosionFractions (top_crust.sediment a.1) (top_crust.sedimentary a.1)
      (top_crust.metamorphic a.1) (top_crust.sial a.1) (g.neighbor_count a.1) (oht a.1)).2.2.1
        = JsVal.num c) ∧
    (∃ c, (erosionFractions (top_crust.sediment a.1) (top_crust.sedimentary a.1)
      (top_crust.metamorphic a.1) (top_crust.sial a.1) (g.neighbor_count a.1) (oht a.1)).2.2.2
        = JsVal.num c) := by
  have hk := Grid.valid_ncount_ne_zero hg ha
  obtain ⟨c1, hc1, -, -⟩ := erosionFracStep_num hk (top_crust.sediment a.1)
    (JsVal.num (oht a.1))
  obtain ⟨c2, hc2, -, -⟩ := erosionFracStep_num hk (top_crust.sedimentary a.1)
    (erosionFracStep (top_crust.sediment a.1) (g.neighbor_count a.1) (JsVal.num (oht a.1))).2
  obtain ⟨c3, hc3, -, -⟩ := erosionFracStep_num hk (top_crust.metamorphic a.1)
    (erosionFracStep (top_crust.sedimentary a.1) (g.neighbor_count a.1)
      (erosionFracStep (top_crust.sediment a.1) (g.neighbor_count a.1)
        (JsVal.num (oht a.1))).2).2
  obtain ⟨c4, hc4, -, -⟩ := erosionFracStep_num hk (top_crust.sial a.1)
    (erosionFracStep (top_crust.metamorphic a.1) (g.neighbor_count a.1)
      (erosionFracStep (top_crust.sedimentary a.1) (g.neighbor_count a.1)
        (erosionFracStep (top_crust.sediment a.1) (g.neighbor_count a.1)
          (JsVal.num (oht a.1))).2).2).2
  exact ⟨⟨c1, hc1⟩, ⟨c2, hc2⟩, ⟨c3, hc3⟩, ⟨c4, hc4⟩⟩

/-- C1: conservation of mass in transport.  For every valid input
(matching topology, non-negative reservoirs), each of the four delta
fields produced by one get_erosion step is finite everywhere and sums to
zero over all cells, so the total
sum(sediment) + sum(sedimentary) + sum(metamorphic) + sum(sial) before
and after applying the deltas is unchanged, exactly, in exact
arithmetic. -/
theorem get_erosion_conserves_mass {n : ℕ} (g : Grid n) (displacement : Fin n → ℚ)
    (sealevel timestep : ℚ) (top_crust : Crust n) (crust_delta : CrustDelta n)
    (hg : g.valid)
    (hs1 : ∀ i, 0 ≤ top_crust.sediment i) (hs2 : ∀ i, 0 ≤ top_crust.sedimentary i)
    (hs3 : ∀ i, 0 ≤ top_crust.metamorphic i) (hs4 : ∀ i, 0 ≤ top_crust.sial i) :
    (∀ i, (∃ q, (get_erosion g displacement sealevel timestep top_crust crust_delta).sediment i
          = JsVal.num q) ∧
        (∃ q, (get_erosion g displacement sealevel timestep top_crust crust_delta).sedimentary i
          = JsVal.num q) ∧
        (∃ q, (get_erosion g displacement sealevel timestep top_crust crust_delta).metamorphic i
          = JsVal.num q) ∧
        (∃ q, (get_erosion g displacement sealevel timestep top_crust crust_delta).sial i
          = JsVal.num q)) ∧
    deltaSum (get_erosion g displacement sealevel timestep top_crust crust_delta).sediment = 0 ∧
    deltaSum (get_erosion g displacement sealevel timestep top_crust crust_delta).sedimentary = 0 ∧
    deltaSum (get_erosion g displacement sealevel timestep top_crust crust_delta).metamorphic = 0 ∧
    deltaSum (get_erosion g displacement sealevel timestep top_crust crust_delta).sial = 0 ∧
    (∑ i, (top_crust.sediment i +
        ((get_erosion g displacement sealevel timestep top_crust crust_delta).sediment i).toQ)) +
      (∑ i, (top_crust.sedimentary i +
        ((get_erosion g displacement sealevel timestep top_crust crust_delta).sedimentary i).toQ)) +
      (∑ i, (top_crust.metamorphic i +
        ((get_erosion g displacement sealevel timestep top_crust crust_delta).metamorphic i).toQ)) +
      (∑ i, (top_crust.sial i +
        ((get_erosion g displacement sealevel timestep top_crust crust_delta).sial i).toQ)) =
    (∑ i, top_crust.sediment i) + (∑ i, top_crust.sedimentary i) +
      (∑ i, top_crust.metamorphic i) + (∑ i, top_crust.sial i) := by
  obtain ⟨hf1, hf2, hf3, hf4⟩ := get_erosion_fields g displacement sealevel timestep
    top_crust crust_delta
  have hc1 := erosionDelta_conserves g (waterHeight displacement sealevel) timestep
    (fun i => (erosionFractions (top_crust.sediment i) (top_crust.sedimentary i)
      (top_crust.metamorphic i) (top_crust.sial i) (g.neighbor_count i)
      (outboundHeightTransfer g (waterHeight displacement sealevel) timestep i)).1)
    (fun a ha => (erosionFractions_all_num hg top_crust
      (outboundHeightTransfer g (waterHeight displacement sealevel) timestep) ha).1)
  have hc2 := erosionDelta_conserves g (waterHeight displacement sealevel) timestep
    (fun i => (erosionFractions (top_crust.sediment i) (top_crust.sedimentary i)
      (top_crust.metamorphic i) (top_crust.sial i) (g.neighbor_count i)
      (outboundHeightTransfer g (waterHeight displacement sealevel) timestep i)).2.1)
    (fun a ha => (erosionFractions_all_num hg top_crust
      (outboundHeightTransfer g (waterHeight displacement sealevel) timestep) ha).2.1)
  have hc3 := erosionDelta_conserves g (waterHeight displacement sealevel) timestep
    (fun i => (erosionFractions (top_crust.sediment i) (top_crust.sedimentary i)
      (top_crust.metamorphic i) (top_crust.sial i) (g.neighbor_count i)
      (outboundHeightTransfer g (waterHeight displacement sealevel) timestep i)).2.2.1)
    (fun a ha => (erosionFractions_all_num hg top_crust
      (outboundHeightTransfer g (waterHeight displacement sealevel) timestep) ha).2.2.1)
  have hc4 := erosionDelta_conserves g (waterHeight displacement sealevel) timestep
    (fun i => (erosionFractions (top_crust.sediment i) (top_crust.sedimentary i)
      (top_crust.metamorphic i) (top_crust.sial i) (g.neighbor_count i)
      (outboundHeightTransfer g (waterHeight displacement sealevel) timestep i)).2.2.2)
    (fun a ha => (erosionFractions_all_num hg top_crust
      (outboundHeightTransfer g (waterHeight displacement sealevel) timestep) ha).2.2.2)
  rw [hf1, hf2, hf3, hf4]
  refine ⟨fun i => ⟨hc1.1 i, hc2.1 i, hc3.1 i, hc4.1 i⟩, hc1.2, hc2.2, hc3.2, hc4.2, ?_⟩
  have e1 : (∑ i, (top_crust.sediment i +
      (erosionDelta g (waterHeight displacement sealevel) timestep
        (fun i => (erosionFractions (top_crust.sediment i) (top_crust.sedimentary i)
          (top_crust.metamorphic i) (top_crust.sial i) (g.neighbor_count i)
          (outboundHeightTransfer g (waterHeight displacement sealevel) timestep i)).1)
        (fun _ => JsVal.num 0) i).toQ)) = (∑ i, top_crust.sediment i) := by
    rw [Finset.sum_add_distrib]
    have : (∑ i, (erosionDelta g (waterHeight displacement sealevel) timestep
        (fun i => (erosionFractions (top_crust.sediment i) (top_crust.sedimentary i)
          (top_crust.metamorphic i) (top_crust.sial i) (g.neighbor_count i)
          (outboundHeightTransfer g (waterHeight displacement sealevel) timestep i)).1)
        (fun _ => JsVal.num 0) i).toQ) = 0 := hc1.2
    rw [this, add_zero]
  have e2 : (∑ i, (top_crust.sedimentary i +
      (erosionDelta g (waterHeight displacement sealevel) timestep
        (fun i => (erosionFractions (top_crust.sediment i) (top_crust.sedimentary i)
          (top_crust.metamorphic i) (top_crust.sial i) (g.neighbor_count i)
          (outboundHeightTransfer g (waterHeight displacement sealevel) timestep i)).2.1)
        (fun _ => JsVal.num 0) i).toQ)) = (∑ i, top_crust.sedimentary i) := by
    rw [Finset.sum_add_distrib]
    have : (∑ i, (erosionDelta g (waterHeight displacement sealevel) timestep
        (fun i => (erosionFractions (top_crust.sediment i) (top_crust.sedimentary i)
          (top_crust.metamorphic i) (top_crust.sial i) (g.neighbor_count i)
          (outboundHeightTransfer g (waterHeight displacement sealevel) timestep i)).2.1)
        (fun _ => JsVal.num 0) i).toQ) = 0 := hc2.2
    rw [this, add_zero]
  have e3 : (∑ i, (top_crust.metamorphic i +
      (erosionDelta g (waterHeight displacement sealevel) timestep
        (fun i => (erosionFractions (top_crust.sediment i) (top_crust.sedimentary i)
          (top_crust.metamorphic i) (top_crust.sial i) (g.neighbor_count i)
          (outboundHeightTransfer g (waterHeight displacement sealevel) timestep i)).2.2.1)
        (fun _ => JsVal.num 0) i).toQ)) = (∑ i, top_crust.metamorphic i) := by
    rw [Finset.sum_add_distrib]
    have : (∑ i, (erosionDelta g (waterHeight displacement sealevel) timestep
        (fun i => (erosionFractions (top_crust.sediment i) (top_crust.sedimentary i)
          (top_crust.metamorphic i) (top_crust.sial i) (g.neighbor_count i)
          (outboundHeightTransfer g (waterHeight displacement sealevel) timestep i)).2.2.1)
        (fun _ => JsVal.num 0) i).toQ) = 0 := hc3.2
    rw [this, add_zero]
  have e4 : (∑ i, (top_crust.sial i +
      (erosionDelta g (waterHeight displacement sealevel) timestep
        (fun i => (erosionFractions (top_crust.sediment i) (top_crust.sedimentary i)
          (top_crust.metamorphic i) (top_crust.sial i) (g.neighbor_count i)
          (outboundHeightTransfer g (waterHeight displacement sealevel) timestep i)).2.2.2)
        (fun _ => JsVal.num 0) i).toQ)) = (∑ i, top_crust.sial i) := by
    rw [Finset.sum_add_distrib]
    have : (∑ i, (erosionDelta g (waterHeight displacement sealevel) timestep
        (fun i => (erosionFractions (top_crust.sediment i) (top_crust.sedimentary i)
          (top_crust.metamorphic i) (top_crust.sial i) (g.neighbor_count i)
          (outboundHeightTransfer g (waterHeight displacement sealevel) timestep i)).2.2.2)
        (fun _ => JsVal.num 0) i).toQ) = 0 := hc4.2
    rw [this, add_zero]
  rw [e1, e2, e3, e4]

unseal Rat.mul Rat.add Rat.sub Rat.inv in
/-- C1 witness: on the two-cell fixture (valid topology, nonnegative
reservoirs) every delta field of get_erosion sums to zero. -/
theorem get_erosion_conserves_mass_witness :
    gEx.valid ∧ (∀ i, 0 ≤ topEx.sediment i) ∧
    deltaSum (get_erosion gEx dispEx 0 tsEx topEx deltaZeroEx).sediment = 0 ∧
    deltaSum (get_erosion gEx dispEx 0 tsEx topEx deltaZeroEx).sedimentary = 0 ∧
    deltaSum (get_erosion gEx dispEx 0 tsEx topEx deltaZeroEx).metamorphic = 0 ∧
    deltaSum (get_erosion gEx dispEx 0 tsEx topEx deltaZeroEx).sial = 0 := by
  have h := get_erosion_conserves_mass gEx dispEx 0 tsEx topEx deltaZeroEx
    (by decide) (by decide) (by decide) (by decide) (by decide)
  exact ⟨by decide, by decide, h.2.1, h.2.2.1, h.2.2.2.1, h.2.2.2.2.1⟩

unseal Rat.mul Rat.add Rat.sub Rat.inv in
/-- C2: the code violates the non-negativity claim.  On the two-cell
fixture the topology is valid, all reservoirs are nonnegative and the
timestep is nonnegative, yet the sedimentary reservoir of cell 0 (holding
1) receives delta -2, so its post-step quantity is -1: the transport
engine drives a reservoir negative.  The fraction pass reduces the
remaining flux candidate against the full outbound transfer while the
transfer pass withdraws fraction times the full per-edge flux, so
later-priority reservoirs are overdrawn. -/
theorem get_erosion_drives_sedimentary_negative :
    gEx.valid ∧ (0 : ℚ) ≤ tsEx ∧
    (∀ i, 0 ≤ topEx.sediment i ∧ 0 ≤ topEx.sedimentary i ∧
      0 ≤ topEx.metamorphic i ∧ 0 ≤ topEx.sial i) ∧
    (get_erosion gEx dispEx 0 tsEx topEx deltaZeroEx).sedimentary 0 = JsVal.num (-2) ∧
    topEx.sedimentary 0 +
      ((get_erosion gEx dispEx 0 tsEx topEx deltaZeroEx).sedimentary 0).toQ < 0 := by
  refine ⟨by decide, by decide, by decide, by decide, by decide⟩

/-- With a zero timestep every edge flux vanishes. -/
lemma edgeFlux_zero_timestep {n : ℕ} (water : Fin n → ℚ) (a : Fin n × Fin n) :
    edgeFlux water 0 a = 0 := by
  unfold edgeFlux
  split_ifs with h
  · ring
  · rfl

/-- With a zero timestep, one transfer-pass arrow whose source fraction is
finite leaves the all-zero delta field all zero. -/
lemma applyTransfer_zero_timestep {n : ℕ} (water : Fin n → ℚ) (frac : Fin n → JsVal)
    (a : Fin n × Fin n) (c : ℚ) (hc : frac a.1 = JsVal.num c) :
    applyTransfer water 0 frac (fun _ => JsVal.num 0) a = fun _ => JsVal.num 0 := by
  funext i
  simp only [applyTransfer, hc, edgeFlux_zero_timestep, jsMul_num, zero_mul, jsSub_num,
    jsAdd_num, Function.update_apply]
  split_ifs <;> simp

/-- With a zero timestep the whole transfer pass leaves the reset delta
field all zero, provided every arrow source has a finite stored
fraction. -/
lemma foldl_applyTransfer_zero_timestep {n : ℕ} (water : Fin n → ℚ) (frac : Fin n → JsVal) :
    ∀ L : List (Fin n × Fin n), (∀ a ∈ L, ∃ c, frac a.1 = JsVal.num c) →
      L.foldl (applyTransfer water 0 frac) (fun _ => JsVal.num 0) = fun _ => JsVal.num 0 := by
  intro L
  induction L with
  | nil => intro _; rfl
  | cons a L ih =>
    intro hL
    obtain ⟨c, hc⟩ := hL a (List.mem_cons_self a L)
    calc (a :: L).foldl (applyTransfer water 0 frac) (fun _ => JsVal.num 0)
        = L.foldl (applyTransfer water 0 frac)
            (applyTransfer water 0 frac (fun _ => JsVal.num 0) a) := rfl
      _ = L.foldl (applyTransfer water 0 frac) (fun _ => JsVal.num 0) := by
            rw [applyTransfer_zero_timestep water frac a c hc]
      _ = fun _ => JsVal.num 0 := ih (fun b hb => hL b (List.mem_cons_of_mem a hb))

/-- C7: zero-timestep identity.  For every valid input with timestep 0,
get_erosion returns all four delta fields equal to zero at every cell. -/
theorem get_erosion_zero_timestep {n : ℕ} (g : Grid n) (displacement : Fin n → ℚ)
    (sealevel : ℚ) (top_crust : Crust n) (crust_delta : CrustDelta n) (hg : g.valid) :
    ∀ i, (get_erosion g displacement sealevel 0 top_crust crust_delta).sediment i
        = JsVal.num 0 ∧
      (get_erosion g displacement sealevel 0 top_crust crust_delta).sedimentary i
        = JsVal.num 0 ∧
      (get_erosion g displacement sealevel 0 top_crust crust_delta).metamorphic i
        = JsVal.num 0 ∧
      (get_erosion g displacement sealevel 0 top_crust crust_delta).sial i
        = JsVal.num 0 := by
  intro i
  obtain ⟨hf1, hf2, hf3, hf4⟩ := get_erosion_fields g displacement sealevel 0
    top_crust crust_delta
  have h1 := foldl_applyTransfer_zero_timestep (waterHeight displacement sealevel)
    (fun i => (erosionFractions (top_crust.sediment i) (top_crust.sedimentary i)
      (top_crust.metamorphic i) (top_crust.sial i) (g.neighbor_count i)
      (outboundHeightTransfer g (waterHeight displacement sealevel) 0 i)).1) g.arrows
    (fun a ha => (erosionFractions_all_num hg top_crust
      (outboundHeightTransfer g (waterHeight displacement sealevel) 0) ha).1)
  have h2 := foldl_applyTransfer_zero_timestep (waterHeight displacement sealevel)
    (fun i => (erosionFractions (top_crust.sediment i) (top_crust.sedimentary i)
      (top_crust.metamorphic i) (top_crust.sial i) (g.neighbor_count i)
      (outboundHeightTransfer g (waterHeight displacement sealevel) 0 i)).2.1) g.arrows
    (fun a ha => (erosionFractions_all_num hg top_crust
      (outboundHeightTransfer g (waterHeight displacement sealevel) 0) ha).2.1)
  have h3 := foldl_applyTransfer_zero_timestep (waterHeight displacement sealevel)
    (fun i => (erosionFractions (top_crust.sediment i) (top_crust.sedimentary i)
      (top_crust.metamorphic i) (top_crust.sial i) (g.neighbor_count i)
      (outboundHeightTransfer g (waterHeight displacement sealevel) 0 i)).2.2.1) g.arrows
    (fun a ha => (erosionFractions_all_num hg top_crust
      (outboundHeightTransfer g (waterHeight displacement sealevel) 0) ha).2.2.1)
  have h4 := foldl_applyTransfer_zero_timestep (waterHeight displacement sealevel)
    (fun i => (erosionFractions (top_crust.sediment i) (top_crust.sedimentary i)
      (top_crust.metamorphic i) (top_crust.sial i) (g.neighbor_count i)
      (outboundHeightTransfer g (waterHeight displacement sealevel) 0 i)).2.2.2) g.arrows
    (fun a ha => (erosionFractions_all_num hg top_crust
      (outboundHeightTransfer g (waterHeight displacement sealevel) 0) ha).2.2.2)
  rw [hf1, hf2, hf3, hf4]
  unfold erosionDelta
  rw [h1, h2, h3, h4]
  exact ⟨rfl, rfl, rfl, rfl⟩

unseal Rat.mul Rat.add Rat.sub Rat.inv in
/-- C7 witness: on the two-cell fixture with timestep 0 all deltas are
zero. -/
theorem get_erosion_zero_timestep_witness :
    gEx.valid ∧
    ((get_erosion gEx dispEx 0 0 topEx deltaZeroEx).sediment 0 = JsVal.num 0 ∧
      (get_erosion gEx dispEx 0 0 topEx deltaZeroEx).sedimentary 0 = JsVal.num 0 ∧
      (get_erosion gEx dispEx 0 0 topEx deltaZeroEx).metamorphic 0 = JsVal.num 0 ∧
      (get_erosion gEx dispEx 0 0 topEx deltaZeroEx).sial 0 = JsVal.num 0) :=
  ⟨by decide, get_erosion_zero_timestep gEx dispEx 0 topEx deltaZeroEx (by decide) 0⟩

/-- A reservoir step with a zero reservoir quantity stores a zero
fraction, whatever the remaining flux candidate (possibly zero or NaN)
and whatever the neighbor count (possibly zero): zero over zero gives
NaN, which the or-zero catches; zero over a nonzero candidate clamps to
zero. -/
lemma erosionFracStep_zero_q_fst (k : ℕ) (R : JsVal) :
    (erosionFracStep 0 k R).1 = JsVal.num 0 := by
  have hc0 : clampQ 0 = 0 := by norm_num [clampQ]
  rcases R with _ | _ | _ | r
  · simp [erosionFracStep, jsDivNum, clamp01, jsDivN, orZero]
  · rcases Nat.eq_zero_or_pos k with hk | hk
    · simp [erosionFracStep, jsDivNum, clamp01, jsDivN, orZero, hc0, hk]
    · simp [erosionFracStep, jsDivNum, clamp01, jsDivN, orZero, hc0, Nat.pos_iff_ne_zero.1 hk]
  · rcases Nat.eq_zero_or_pos k with hk | hk
    · simp [erosionFracStep, jsDivNum, clamp01, jsDivN, orZero, hc0, hk]
    · simp [erosionFracStep, jsDivNum, clamp01, jsDivN, orZero, hc0, Nat.pos_iff_ne_zero.1 hk]
  · by_cases hr : r = 0
    · simp [erosionFracStep, jsDivNum, clamp01, jsDivN, orZero, hr]
    · rcases Nat.eq_zero_or_pos k with hk | hk
      · simp [erosionFracStep, jsDivNum, clamp01, jsDivN, orZero, hc0, hr, hk]
      · simp [erosionFracStep, jsDivNum, clamp01, jsDivN, orZero, hc0, hr,
          Nat.pos_iff_ne_zero.1 hk]

/-- Subtracting the number zero is the identity in JavaScript
arithmetic. -/
lemma jsSub_num_zero (v : JsVal) : jsSub v (JsVal.num 0) = v := by
  rcases v with _ | _ | _ | a <;> simp [jsSub, jsAdd, jsNeg]

/-- Adding the number zero is the identity in JavaScript arithmetic. -/
lemma jsAdd_num_zero (v : JsVal) : jsAdd v (JsVal.num 0) = v := by
  rcases v with _ | _ | _ | a <;> simp [jsAdd]

/-- C8: degenerate-division handling.  A cell whose four reservoirs are
all zero gets all four stored outbound fractions equal to zero, for every
remaining flux candidate (including zero, where the division produces NaN
and the or-zero substitutes 0) and every neighbor count (including zero);
consequently a transfer-pass arrow leaving a cell with a zero stored
fraction changes no delta cell. -/
theorem get_erosion_degenerate_divisions :
    (∀ (oht : ℚ) (k : ℕ), erosionFractions 0 0 0 0 k oht
      = (JsVal.num 0, JsVal.num 0, JsVal.num 0, JsVal.num 0)) ∧
    (∀ {n : ℕ} (water : Fin n → ℚ) (timestep : ℚ) (frac : Fin n → JsVal)
      (d : Fin n → JsVal) (a : Fin n × Fin n), frac a.1 = JsVal.num 0 →
      applyTransfer water timestep frac d a = d) := by
  constructor
  · intro oht k
    rw [erosionFractions_comp]
    rw [erosionFracStep_zero_q_fst k (JsVal.num oht),
      erosionFracStep_zero_q_fst k (erosionFracStep 0 k (JsVal.num oht)).2,
      erosionFracStep_zero_q_fst k (erosionFracStep 0 k
        (erosionFracStep 0 k (JsVal.num oht)).2).2,
      erosionFracStep_zero_q_fst k (erosionFracStep 0 k (erosionFracStep 0 k
        (erosionFracStep 0 k (JsVal.num oht)).2).2).2]
  · intro n water timestep frac d a h
    simp only [applyTransfer, h, jsMul_num, mul_zero, jsSub_num_zero, jsAdd_num_zero,
      Function.update_eq_self]

unseal Rat.mul Rat.add Rat.sub Rat.inv in
/-- C8 witness: concrete instances of both parts, with zero remaining
flux candidate and zero neighbor count in the first part. -/
theorem get_erosion_degenerate_divisions_witness :
    erosionFractions 0 0 0 0 0 0 = (JsVal.num 0, JsVal.num 0, JsVal.num 0, JsVal.num 0) ∧
    applyTransfer (fun _ : Fin 1 => (0 : ℚ)) 1 (fun _ => JsVal.num 0)
      (fun _ => JsVal.num 17) ((0 : Fin 1), (0 : Fin 1)) = (fun _ => JsVal.num 17) :=
  ⟨get_erosion_degenerate_divisions.1 0 0,
   get_erosion_degenerate_divisions.2 (fun _ => (0 : ℚ)) 1 (fun _ => JsVal.num 0)
     (fun _ => JsVal.num 17) ((0 : Fin 1), (0 : Fin 1)) rfl⟩

/-- C3 amended: per-reservoir withdrawal-fraction rule.  Reservoirs are
processed in the order sediment, sedimentary, metamorphic, sial; each
stored fraction equals clamp(quantity / remaining, 0, 1) divided by the
neighbor count, and the remaining flux candidate is reduced TO
remaining times (1 - fraction) (equivalently, reduced BY remaining times
fraction) before the next reservoir is evaluated — stated for a nonzero
neighbor count and remaining flux candidates that stay nonzero. -/
theorem erosion_fraction_rule (q1 q2 q3 q4 R : ℚ) (k : ℕ) (hk : k ≠ 0)
    (h1 : R ≠ 0)
    (h2 : (specFracStep q1 R).2 ≠ 0)
    (h3 : (specFracStep q2 (specFracStep q1 R).2).2 ≠ 0)
    (h4 : (specFracStep q3 (specFracStep q2 (specFracStep q1 R).2).2).2 ≠ 0) :
    erosionFractions q1 q2 q3 q4 k R =
      (JsVal.num ((specFracStep q1 R).1 / (k : ℚ)),
       JsVal.num ((specFracStep q2 (specFracStep q1 R).2).1 / (k : ℚ)),
       JsVal.num ((specFracStep q3 (specFracStep q2 (specFracStep q1 R).2).2).1 / (k : ℚ)),
       JsVal.num ((specFracStep q4 (specFracStep q3 (specFracStep q2
         (specFracStep q1 R).2).2).2).1 / (k : ℚ))) := by
  have e1 := erosionFracStep_eval hk q1 R h1
  have e2 := erosionFracStep_eval hk q2 ((specFracStep q1 R).2) h2
  have e3 := erosionFracStep_eval hk q3 ((specFracStep q2 (specFracStep q1 R).2).2) h3
  have e4 := erosionFracStep_eval hk q4
    ((specFracStep q3 (specFracStep q2 (specFracStep q1 R).2).2).2) h4
  simp only [specFracStep] at e2 e3 e4 ⊢
  simp only [erosionFractions_comp, e1, e2, e3, e4]

unseal Rat.mul Rat.add Rat.sub Rat.inv in
/-- C3 counterexample: the claim words the update as reducing the
remaining flux candidate BY remaining times (1 - fraction).  With
reservoirs (1, 1, 0, 0), neighbor count 1 and outbound flux candidate 4,
that reading predicts a second fraction of 1, while the code (which
multiplies the remaining candidate by 1 - fraction) stores 1/3. -/
theorem erosion_fraction_rule_counterexample :
    (erosionFractions 1 1 0 0 1 4).2.1 = JsVal.num (1 / 3) ∧
    (specFracStepAsWritten 1 (specFracStepAsWritten 1 4).2).1 = 1 ∧
    (erosionFractions 1 1 0 0 1 4).2.1 ≠
      JsVal.num ((specFracStepAsWritten 1 (specFracStepAsWritten 1 4).2).1) := by
  refine ⟨by decide, by decide, by decide⟩

unseal Rat.mul Rat.add Rat.sub Rat.inv in
/-- C3 witness: with reservoirs (8, 4, 2, 1), neighbor count 1 and
outbound flux candidate 16 every remaining candidate is nonzero and all
four fractions follow the corrected clamp recurrence. -/
theorem erosion_fraction_rule_witness :
    (1 : ℕ) ≠ 0 ∧ (16 : ℚ) ≠ 0 ∧ (specFracStep 8 16).2 ≠ 0 ∧
    (specFracStep 4 (specFracStep 8 16).2).2 ≠ 0 ∧
    (specFracStep 2 (specFracStep 4 (specFracStep 8 16).2).2).2 ≠ 0 ∧
    erosionFractions 8 4 2 1 1 16 =
      (JsVal.num ((specFracStep 8 16).1 / ((1 : ℕ) : ℚ)),
       JsVal.num ((specFracStep 4 (specFracStep 8 16).2).1 / ((1 : ℕ) : ℚ)),
       JsVal.num ((specFracStep 2 (specFracStep 4 (specFracStep 8 16).2).2).1 / ((1 : ℕ) : ℚ)),
       JsVal.num ((specFracStep 1 (specFracStep 2 (specFracStep 4
         (specFracStep 8 16).2).2).2).1 / ((1 : ℕ) : ℚ))) :=
  ⟨by decide, by decide, by decide, by decide, by decide,
   erosion_fraction_rule 8 4 2 1 16 1 (by decide) (by decide) (by decide) (by decide)
     (by decide)⟩

/-- Label fixture over the two-cell grid: cell 0 carries label 3, cell 1
is unlabeled. -/
def labelsEx : Fin 2 → ℕ := fun i => if i = 0 then 3 else 0

/-- Density fixture over the two-cell grid. -/
def densityEx : Fin 2 → ℚ := fun i => if i = 0 then 1 else 0

/-- C4: segmentation post-processing never cannibalizes other regions.
One post-processing step of get_plate_map for a plate id leaves every
cell currently labeled with a different nonzero label unchanged, and
writes the id only into cells currently labeled 0 or already labeled
with the id (the is_occupied subtraction removes every other cell from
the fill mask, whatever the dilation and closing produced). -/
theorem plate_step_preserves_other_labels {n : ℕ} (g : Grid n) (labels : Fin n → ℕ)
    (id : ℕ) :
    (∀ i, labels i ≠ 0 → labels i ≠ id → plateStep g labels id i = labels i) ∧
    (∀ i, plateStep g labels id i = id → labels i = 0 ∨ labels i = id) := by
  have p1 : ∀ i, labels i ≠ 0 → labels i ≠ id → plateStep g labels id i = labels i := by
    intro i h0 hid
    simp [plateStep, fill_into_selection, maskDifference, h0, hid]
  refine ⟨p1, ?_⟩
  intro i h
  by_cases h0 : labels i = 0
  · exact Or.inl h0
  by_cases hid : labels i = id
  · exact Or.inr hid
  · rw [p1 i h0 hid] at h
    exact absurd h hid

/-- C4 witness: cell 0 of the fixture carries label 3, which the
post-processing step for plate id 5 leaves unchanged. -/
theorem plate_step_preserves_other_labels_witness :
    labelsEx 0 ≠ 0 ∧ labelsEx 0 ≠ 5 ∧ plateStep gEx labelsEx 5 0 = labelsEx 0 :=
  ⟨by decide, by decide,
   (plate_step_preserves_other_labels gEx labelsEx 5).1 0 (by decide) (by decide)⟩

/-- One diffusion pass with constant 1 replaces each cell value by its
neighbor average, which lies between any bounds enclosing the input
field (in a valid topology, where the neighbor count matches the edge
list). -/
lemma diffusion_by_constant_bounds {n : ℕ} (g : Grid n) (hg : g.valid) (f : Fin n → ℚ)
    (lo hi : ℚ) (hb : ∀ j, lo ≤ f j ∧ f j ≤ hi) (i : Fin n) :
    lo ≤ diffusion_by_constant f 1 g i ∧ diffusion_by_constant f 1 g i ≤ hi := by
  unfold diffusion_by_constant
  by_cases h : g.neighbor_count i = 0
  · rw [if_pos h]
    exact hb i
  · rw [if_neg h]
    have hkpos : (0 : ℚ) < (g.neighbor_count i : ℚ) := by
      exact_mod_cast Nat.pos_of_ne_zero h
    have hlen : (((g.arrows.filter (fun a => decide (a.1 = i))).map
        (fun a => f a.2)).length : ℚ) = (g.neighbor_count i : ℚ) := by
      rw [List.length_map]
      exact_mod_cast (hg i).symm
    have hub : ((g.arrows.filter (fun a => decide (a.1 = i))).map (fun a => f a.2)).sum ≤
        (g.neighbor_count i : ℚ) * hi := by
      have h1 := List.sum_le_card_nsmul
        ((g.arrows.filter (fun a => decide (a.1 = i))).map (fun a => f a.2)) hi ?_
      · rw [nsmul_eq_mul, hlen] at h1
        exact h1
      · intro x hx
        obtain ⟨a, ha, rfl⟩ := List.mem_map.1 hx
        exact (hb a.2).2
    have hlb : (g.neighbor_count i : ℚ) * lo ≤
        ((g.arrows.filter (fun a => decide (a.1 = i))).map (fun a => f a.2)).sum := by
      have h1 := List.card_nsmul_le_sum
        ((g.arrows.filter (fun a => decide (a.1 = i))).map (fun a => f a.2)) lo ?_
      · rw [nsmul_eq_mul, hlen] at h1
        exact h1
      · intro x hx
        obtain ⟨a, ha, rfl⟩ := List.mem_map.1 hx
        exact (hb a.2).1
    have havg : f i + 1 * (((g.arrows.filter (fun a => decide (a.1 = i))).map
        (fun a => f a.2)).sum / (g.neighbor_count i : ℚ) - f i) =
        ((g.arrows.filter (fun a => decide (a.1 = i))).map
          (fun a => f a.2)).sum / (g.neighbor_count i : ℚ) := by
      ring
    rw [havg]
    constructor
    · rw [le_div_iff₀ hkpos, mul_comm]
      exact hlb
    · rw [div_le_iff₀ hkpos, mul_comm]
      exact hub

/-- C5: diffusion boundedness.  Any bounds enclosing the input density
field enclose the result of each local-averaging pass and the pressure
field returned by get_asthenosphere_pressure; taking the bounds to be the
minimum and maximum of the input, no pass produces a new extremum. -/
theorem get_asthenosphere_pressure_bounded {n : ℕ} (g : Grid n) (density : Fin n → ℚ)
    (lo hi : ℚ) (hg : g.valid) (hb : ∀ j, lo ≤ density j ∧ density j ≤ hi) :
    (∀ i, lo ≤ diffusion_by_constant density 1 g i ∧
      diffusion_by_constant density 1 g i ≤ hi) ∧
    (∀ i, lo ≤ get_asthenosphere_pressure g density i ∧
      get_asthenosphere_pressure g density i ≤ hi) := by
  refine ⟨fun i => diffusion_by_constant_bounds g hg density lo hi hb i, ?_⟩
  have hiter : ∀ m, ∀ j, lo ≤ smoothIter g density m j ∧ smoothIter g density m j ≤ hi := by
    intro m
    induction m with
    | zero => exact hb
    | succ m ih =>
      intro j
      exact diffusion_by_constant_bounds g hg (smoothIter g density m) lo hi ih j
  exact hiter 15

unseal Rat.mul Rat.add Rat.sub Rat.inv in
/-- C5 witness: on the two-cell fixture the smoothed pressure at cell 0
stays within the input range [0, 1]. -/
theorem get_asthenosphere_pressure_bounded_witness :
    gEx.valid ∧ (0 : ℚ) ≤ get_asthenosphere_pressure gEx densityEx 0 ∧
    get_asthenosphere_pressure gEx densityEx 0 ≤ 1 :=
  ⟨by decide,
   ((get_asthenosphere_pressure_bounded gEx densityEx 0 1 (by decide) (by decide)).2 0).1,
   ((get_asthenosphere_pressure_bounded gEx densityEx 0 1 (by decide) (by decide)).2 0).2⟩

/-- C6: isostasy formula.  For a positive mantle density, get_displacement
writes thickness times (1 - density / mantle density), pointwise. -/
theorem get_displacement_isostasy {n : ℕ} (thickness density : Fin n → ℚ)
    (mantleDensity : ℚ) (h : 0 < mantleDensity) :
    ∀ i, get_displacement thickness density mantleDensity i =
      thickness i * (1 - density i / mantleDensity) := by
  intro i
  unfold get_displacement
  rw [one_div, div_eq_mul_inv]
  ring

/-- C6 witness: thickness 6, density 1, mantle density 3 gives
displacement 6 * (1 - 1/3) = 4. -/
theorem get_displacement_isostasy_witness :
    (0 : ℚ) < 3 ∧ get_displacement (fun _ : Fin 1 => (6 : ℚ)) (fun _ => 1) 3 0 =
      6 * (1 - 1 / 3) :=
  ⟨by norm_num,
   get_displacement_isostasy (fun _ : Fin 1 => (6 : ℚ)) (fun _ => 1) 3 (by norm_num) 0⟩

/-- C9: the deltas produced by get_erosion do not depend on the initial
contents of the delta bundle passed by the caller — the routine resets
every delta field to zero (Crust.reset) before accumulating transfers,
so two calls differing only in the incoming delta bundle agree. -/
theorem get_erosion_ignores_initial_deltas {n : ℕ} (g : Grid n)
    (displacement : Fin n → ℚ) (sealevel timestep : ℚ) (top_crust : Crust n)
    (d1 d2 : CrustDelta n) :
    get_erosion g displacement sealevel timestep top_crust d1 =
      get_erosion g displacement sealevel timestep top_crust d2 := rfl

/-- C10: get_asthenosphere_pressure reads the density raster but writes
only the pressure and scratch rasters, so when the caller supplies
distinct rasters the density field after the call equals its value
before the call, and the pressure raster holds the smoothed copy. -/
theorem get_asthenosphere_pressure_preserves_density {n : ℕ} (g : Grid n)
    (s : PressureState n) :
    (get_asthenosphere_pressure_state g s).density = s.density ∧
    (get_asthenosphere_pressure_state g s).pressure =
      get_asthenosphere_pressure g s.density :=
  ⟨rfl, rfl⟩
